import Mathlib

/-!
Shallow embedding, in Lean 4, of the client-side state-synchronization core
of the mission-control-frontend ticket board, together with proofs about it.

Embedded source files:
* `src/hooks/useTickets.ts` — the react-query mutation hooks
  (`useUpdateTicket`, `useMoveTicket`): optimistic write (`onMutate`),
  rollback (`onError`), settle (`onSettled` → query invalidation).
* `src/hooks/useSocket.ts` — the push-event handlers
  (`tickets:init`, `ticket:created`, `ticket:updated`, `ticket:deleted`).
* `src/components/KanbanBoard` — lane grouping (`ticketsByStatus`) and the
  drag-and-drop handler (`handleDragEnd`).
* `src/api/tickets.ts` — `handleResponse` (shared REST error handling,
  including the 401 path) and the inline error handling of `deleteTicket`.
* `src/api/projects.ts` — `hasMinimumRole`, `getProjectPermissions`.

The react-query cache entry for key `['tickets']` is modelled as
`Option (List Ticket)` (`none` = query data not yet cached, mirroring
`getQueryData` returning `undefined`).  `status` is a `String` at runtime
(server payloads are loosely typed; the board coerces unrecognized values),
so tickets carry `status : String`; `priority` is the closed union
`'low' | 'medium' | 'high'` of `types/ticket.ts`.
-/

/-- Priority from `types/ticket.ts`: `'low' | 'medium' | 'high'`. -/
inductive Priority where
  | low
  | medium
  | high
deriving DecidableEq, Repr

/-- GroomingInfo from `types/ticket.ts`. -/
structure GroomingInfo where
  status : String
  triggeredAt : Option String := none
  completedAt : Option String := none
  sessionKey : Option String := none
  attempts : Option Nat := none
  lastError : Option String := none
deriving DecidableEq, Repr

/-- Ticket from `types/ticket.ts`.  `status` is a `String`: the TS union
is a compile-time annotation only, and the board explicitly handles
unrecognized runtime values (`ticket.status as TicketStatus` plus the
backlog fallback in `ticketsByStatus`). -/
structure Ticket where
  id : String
  title : String
  status : String
  priority : Priority
  project : String
  assignee : Option String := none
  estimate : Option Int := none
  createdAt : String
  updatedAt : String
  body : String
  grooming : Option GroomingInfo := none
  qualityScore : Option Int := none
deriving DecidableEq, Repr

/-- TicketUpdate from `types/ticket.ts`: every field optional. -/
structure TicketUpdate where
  title : Option String := none
  status : Option String := none
  priority : Option Priority := none
  project : Option String := none
  assignee : Option String := none
  estimate : Option Int := none
  body : Option String := none
deriving DecidableEq, Repr

/-- The JS object spread `{ ...ticket, ...update }` of the optimistic write
in `useUpdateTicket.onMutate`: fields present in `update` override the
ticket's fields; `id`, `createdAt`, `updatedAt`, `grooming` and
`qualityScore` are not part of `TicketUpdate` and stay. -/
def applyUpdate (t : Ticket) (u : TicketUpdate) : Ticket :=
  { t with
    title := u.title.getD t.title
    status := u.status.getD t.status
    priority := u.priority.getD t.priority
    project := u.project.getD t.project
    assignee := match u.assignee with | some a => some a | none => t.assignee
    estimate := match u.estimate with | some e => some e | none => t.estimate
    body := u.body.getD t.body }

/-- The react-query cache entry for key `['tickets']`:
`none` models `getQueryData` returning `undefined`. -/
abbrev TicketsData := Option (List Ticket)

/-- The context object returned by `onMutate` and handed to `onError`:
`{ previousTickets }`, the snapshot taken before the optimistic write. -/
structure MutationContext where
  previousTickets : TicketsData
deriving DecidableEq, Repr

/-- Embeds `useUpdateTicket.onMutate` (src/hooks/useTickets.ts):
snapshot the cache, then optimistically apply `update` to the ticket with
the given `id`, stamping `updatedAt` with the local clock (`now` stands for
`new Date().toISOString()`).  `setQueryData`'s updater returns `old`
unchanged when the cache is uninitialized (`if (!old) return old`).
Returns the new cache contents and the context. -/
def updateOnMutate (id : String) (u : TicketUpdate) (now : String)
    (s : TicketsData) : TicketsData × MutationContext :=
  (s.map (fun old => old.map (fun t =>
      if t.id == id then { applyUpdate t u with updatedAt := now } else t)),
   ⟨s⟩)

/-- Embeds `useMoveTicket.onMutate` (src/hooks/useTickets.ts): same shape, the
optimistic write sets `status := newStatus` and bumps `updatedAt`. -/
def moveOnMutate (id : String) (newStatus : String) (now : String)
    (s : TicketsData) : TicketsData × MutationContext :=
  (s.map (fun old => old.map (fun t =>
      if t.id == id then { t with status := newStatus, updatedAt := now } else t)),
   ⟨s⟩)

/-- Embeds `onError` of both `useUpdateTicket` and `useMoveTicket`:
`if (context?.previousTickets) queryClient.setQueryData(['tickets'],
context.previousTickets)`.  A `some` snapshot (any array, the empty one
included, is truthy in JS) is written back wholesale; a `none` snapshot
leaves the cache alone. -/
def mutationOnError (ctx : MutationContext) (s : TicketsData) : TicketsData :=
  match ctx.previousTickets with
  | some prev => some prev
  | none => s

/-- The query-cache state the settle path acts on: the `['tickets']` data
plus whether `invalidateQueries({ queryKey: ['tickets'] })` has been
called (which schedules a reconciling refetch but writes nothing). -/
structure QueryCache where
  data : TicketsData
  invalidated : Bool
deriving DecidableEq, Repr

/-- Embeds `onSettled` of `useUpdateTicket`/`useMoveTicket`: the only success-path
handler.  It calls `invalidateQueries` and performs no `setQueryData`:
the cached tickets are left untouched. -/
def mutationOnSettled (q : QueryCache) : QueryCache :=
  { q with invalidated := true }

/-- A refetch response resolving: react-query replaces the `['tickets']`
data with the fresh server list (the `replaceAll` of the Query/Fetch
layer) and the entry is fresh again. -/
def applyRefetch (serverList : List Ticket) (_q : QueryCache) : QueryCache :=
  { data := some serverList, invalidated := false }

/-- Cache lookup by id, as every reader does it
(`tickets.find(t => t.id === id)`). -/
def getTicket (s : TicketsData) (id : String) : Option Ticket :=
  match s with
  | none => none
  | some l => l.find? (fun t => t.id == id)

/-- C1 — Rollback exactness: for every cached ticket collection and every
update or move mutation, running `onMutate` (snapshot + optimistic write)
and then, on remote failure, `onError` with the returned context restores
the tickets cache to exactly the pre-mutation contents: the entry for the
mutated id and the entries for all other ids equal their pre-mutation
values. -/
theorem rollback_exactness (s : TicketsData) (id : String)
    (u : TicketUpdate) (newStatus now : String) :
    mutationOnError (updateOnMutate id u now s).2 (updateOnMutate id u now s).1 = s ∧
    mutationOnError (moveOnMutate id newStatus now s).2 (moveOnMutate id newStatus now s).1 = s := by
  cases s <;> exact ⟨rfl, rfl⟩

/-- A concrete ticket used in the interleaving and server-precedence
scenarios. -/
def sampleTicket : Ticket :=
  { id := "T-1", title := "Old title", status := "backlog", priority := .medium,
    project := "Optrader", createdAt := "2024-01-01T00:00:00Z",
    updatedAt := "2024-01-01T00:00:00Z", body := "body", qualityScore := some 50 }

/-- Cache holding just `sampleTicket`. -/
def sampleCache : TicketsData := some [sampleTicket]

/-- Mutation A of the interleaving scenario: an update renaming `T-1`,
issued at local time `u1`. -/
def stepA : TicketsData × MutationContext :=
  updateOnMutate "T-1" { title := some "New title" } "u1" sampleCache

/-- Mutation B of the interleaving scenario: a move of `T-1` to `todo`,
issued at local time `u2`, after A's optimistic write and before A
resolves. -/
def stepB : TicketsData × MutationContext :=
  moveOnMutate "T-1" "todo" "u2" stepA.1

/-- The cache after A's failure is processed while B is still pending:
A's `onError` runs against the state carrying B's optimistic write. -/
def afterAFails : TicketsData := mutationOnError stepA.2 stepB.1

/-- C2 — same-id interleaving, evaluated at the failing input.  The first
conjunct is the half of the claim the code satisfies: B's snapshot is the
cache state after A's optimistic write.  The rest exhibits the bug: A's
failure-rollback is not skipped while B is pending — `onError`
unconditionally restores A's pre-mutation snapshot, so the cache reverts
to the original state, B's pending `todo` move is silently wiped
(status is back to `backlog`), and the result differs from the state B
had produced. -/
theorem same_id_rollback_corruption :
    stepB.2.previousTickets = stepA.1 ∧
    afterAFails = sampleCache ∧
    (getTicket afterAFails "T-1").map Ticket.status = some "backlog" ∧
    afterAFails ≠ stepB.1 := by
  refine ⟨rfl, rfl, rfl, ?_⟩
  decide

/-- The server's authoritative response to the scenario's update: it
differs from the optimistic guess in `updatedAt` and in the recomputed
`qualityScore`. -/
def serverResponseTicket : Ticket :=
  { id := "T-1", title := "New title", status := "backlog", priority := .medium,
    project := "Optrader", createdAt := "2024-01-01T00:00:00Z",
    updatedAt := "2024-06-01T12:00:00Z", body := "body", qualityScore := some 80 }

/-- The query cache after the scenario's update mutation succeeds with
`serverResponseTicket`: the hooks run `onMutate` and then, on success,
only `onSettled` (there is no `onSuccess` writing the response). -/
def afterUpdateSuccess : QueryCache :=
  mutationOnSettled ⟨(updateOnMutate "T-1" { title := some "New title" } "u1" sampleCache).1, false⟩

/-- C3 counterexample: after a successful update whose server response
recomputes `qualityScore` (80) and carries the server timestamp, the cache
entry for `T-1` is still the optimistic guess (local timestamp `u1`,
stale `qualityScore` 50), not the server's returned representation — the
success-path handler never writes the mutation response. -/
theorem server_precedence_counterexample :
    getTicket afterUpdateSuccess.data "T-1" ≠ some serverResponseTicket ∧
    getTicket afterUpdateSuccess.data "T-1" =
      some { sampleTicket with title := "New title", updatedAt := "u1" } := by
  refine ⟨?_, rfl⟩
  decide

/-- C3 amended: the success path of `useUpdateTicket`/`useMoveTicket`
performs no direct write of the server response; its only handler,
`onSettled`, leaves the cached tickets exactly as the optimistic write
left them and invalidates the `['tickets']` query, scheduling a
reconciling refetch; server precedence is reached only when that refetch
resolves and replaces the whole collection with the server's list. -/
theorem success_path_invalidates_only (s : TicketsData) (id : String)
    (u : TicketUpdate) (newStatus now : String) (L : List Ticket) (q : QueryCache) :
    (mutationOnSettled ⟨(updateOnMutate id u now s).1, false⟩).data =
      (updateOnMutate id u now s).1 ∧
    (mutationOnSettled ⟨(updateOnMutate id u now s).1, false⟩).invalidated = true ∧
    (mutationOnSettled ⟨(moveOnMutate id newStatus now s).1, false⟩).data =
      (moveOnMutate id newStatus now s).1 ∧
    (mutationOnSettled ⟨(moveOnMutate id newStatus now s).1, false⟩).invalidated = true ∧
    (applyRefetch L q).data = some L :=
  ⟨rfl, rfl, rfl, rfl, rfl⟩

/-! ## Real-time merge layer: `useSocket` push-event handlers -/

/-- Embeds the `tickets:init` handler (src/hooks/useSocket.ts):
`setQueryData(['tickets'], tickets)` — the payload replaces the cache
wholesale. -/
def ticketsInit (tickets : List Ticket) (_s : TicketsData) : TicketsData :=
  some tickets

/-- Embeds the `ticket:created` handler: when the cache is uninitialized
the event seeds it with `[ticket]`; otherwise the ticket is appended
unconditionally (`[...old, ticket]`), with no check that the id is
already present. -/
def ticketCreated (t : Ticket) (s : TicketsData) : TicketsData :=
  match s with
  | none => some [t]
  | some old => some (old ++ [t])

/-- Embeds the `ticket:updated` handler: when the cache is uninitialized
it becomes `[ticket]`; otherwise every entry whose id matches is replaced
(`old.map(t => t.id === ticket.id ? ticket : t)`) — a plain `map`, which
inserts nothing when no entry matches. -/
def ticketUpdated (t : Ticket) (s : TicketsData) : TicketsData :=
  match s with
  | none => some [t]
  | some old => some (old.map (fun x => if x.id == t.id then t else x))

/-- Embeds the `ticket:deleted` handler: filter the matching id out
(`old.filter(t => t.id !== data.id)`); an uninitialized cache becomes
the empty list. -/
def ticketDeleted (id : String) (s : TicketsData) : TicketsData :=
  match s with
  | none => some []
  | some old => some (old.filter (fun x => x.id != id))

/-- A second concrete ticket, with an id absent from `sampleCache`. -/
def otherTicket : Ticket :=
  { id := "T-2", title := "Other", status := "todo", priority := .high,
    project := "Grapevine", createdAt := "2024-02-01T00:00:00Z",
    updatedAt := "2024-02-01T00:00:00Z", body := "other body" }

/-- C4 counterexample: a `ticket:updated` push event for an id with no
entry in the (initialized) cache leaves the cache unchanged — the entry
for the event's id is absent afterwards, not equal to the pushed ticket,
so the event does not always overwrite the entry for that id. -/
theorem push_overwrite_counterexample :
    ticketUpdated otherTicket sampleCache = sampleCache ∧
    getTicket (ticketUpdated otherTicket sampleCache) "T-2" = none := by
  exact ⟨rfl, rfl⟩

/-- Helper: replacing every id-match by `t` and then searching for `t.id`
finds `t`, provided some entry matched. -/
theorem find_map_replace (t : Ticket) :
    ∀ old : List Ticket, old.any (fun x => x.id == t.id) = true →
      ((old.map (fun x => if x.id == t.id then t else x)).find?
        (fun x => x.id == t.id)) = some t := by
  intro old
  induction old with
  | nil => intro h; cases h
  | cons x rest ih =>
    intro h
    by_cases hx : (x.id == t.id) = true
    · simp only [List.map_cons, if_pos hx]
      exact List.find?_cons_of_pos _ (beq_self_eq_true t.id)
    · simp only [List.map_cons, if_neg hx]
      refine (@List.find?_cons_of_neg Ticket (fun y => y.id == t.id) x
        (rest.map (fun y => if y.id == t.id then t else y)) hx).trans (ih ?_)
      simp only [List.any_cons, Bool.or_eq_true] at h
      rcases h with h | h
      · exact absurd h hx
      · exact h

/-- Helper: the replacing map is the identity when no entry matches. -/
theorem map_replace_no_match (t : Ticket) :
    ∀ old : List Ticket, old.all (fun x => x.id != t.id) = true →
      old.map (fun x => if x.id == t.id then t else x) = old := by
  intro old
  induction old with
  | nil => intro _; rfl
  | cons x rest ih =>
    intro h
    simp only [List.all_cons, Bool.and_eq_true, bne_iff_ne, ne_eq] at h
    have hx : ¬ (x.id == t.id) = true := fun hc => h.1 (eq_of_beq hc)
    rw [List.map_cons, if_neg hx, ih (by simpa using h.2)]

/-- Helper: searching an append whose left half has no match finds in the
right half. -/
theorem find_append_no_match (t : Ticket) :
    ∀ old : List Ticket, old.all (fun x => x.id != t.id) = true →
      ((old ++ [t]).find? (fun x => x.id == t.id)) = some t := by
  intro old
  induction old with
  | nil =>
    intro _
    exact List.find?_cons_of_pos _ (beq_self_eq_true t.id)
  | cons x rest ih =>
    intro h
    simp only [List.all_cons, Bool.and_eq_true, bne_iff_ne, ne_eq] at h
    have hx : ¬ (x.id == t.id) = true := fun hc => h.1 (eq_of_beq hc)
    rw [List.cons_append]
    exact (@List.find?_cons_of_neg Ticket (fun y => y.id == t.id) x
      (rest ++ [t]) hx).trans (ih (by simpa using h.2))

/-- C4 amended — push merge rules as the handlers actually behave:
an `updated` event overwrites the entry for its id when one is present
(and seeds an uninitialized cache with `[t]`) but is a no-op when the id
is absent from an initialized cache; a `created` event appends
unconditionally, so it yields the entry `t` when the id was absent and
produces a duplicate id (at least two entries for `t.id`) when it was
already present. -/
theorem push_event_merge_rules (old : List Ticket) (t : Ticket) :
    (old.any (fun x => x.id == t.id) = true →
       getTicket (ticketUpdated t (some old)) t.id = some t) ∧
    (old.all (fun x => x.id != t.id) = true →
       ticketUpdated t (some old) = some old) ∧
    ticketUpdated t none = some [t] ∧
    ticketCreated t (some old) = some (old ++ [t]) ∧
    (old.all (fun x => x.id != t.id) = true →
       getTicket (ticketCreated t (some old)) t.id = some t) ∧
    (old.any (fun x => x.id == t.id) = true →
       2 ≤ (old ++ [t]).countP (fun x => x.id == t.id)) := by
  refine ⟨?_, ?_, rfl, rfl, ?_, ?_⟩
  · intro h
    exact find_map_replace t old h
  · intro h
    show some (old.map (fun x => if x.id == t.id then t else x)) = some old
    rw [map_replace_no_match t old h]
  · intro h
    exact find_append_no_match t old h
  · intro h
    have h1 : 0 < old.countP (fun x => x.id == t.id) := by
      rcases List.any_eq_true.mp h with ⟨x, hx, hpx⟩
      exact List.countP_pos_iff.mpr ⟨x, hx, hpx⟩
    have h2 : (old ++ [t]).countP (fun x => x.id == t.id) =
        old.countP (fun x => x.id == t.id) + 1 := by
      simp [List.countP_append, List.countP_cons]
    omega

/-- Closed witness for `push_event_merge_rules`: its hypotheses hold and
its conclusions follow at a concrete cache. -/
theorem push_event_merge_rules_witness :
    ([sampleTicket].any (fun x => x.id == sampleTicket.id) = true ∧
       getTicket (ticketUpdated sampleTicket (some [sampleTicket])) sampleTicket.id =
         some sampleTicket) ∧
    ([sampleTicket].all (fun x => x.id != otherTicket.id) = true ∧
       ticketUpdated otherTicket (some [sampleTicket]) = some [sampleTicket]) :=
  ⟨⟨by decide, (push_event_merge_rules [sampleTicket] sampleTicket).1 (by decide)⟩,
   ⟨by decide, (push_event_merge_rules [sampleTicket] otherTicket).2.1 (by decide)⟩⟩

/-- The id column of a ticket list. -/
def ticketIds (l : List Ticket) : List String :=
  l.map Ticket.id

/-- Helper: a map that preserves every ticket's id preserves the id
column. -/
theorem ticketIds_map_of_id_eq (f : Ticket → Ticket)
    (hf : ∀ x, (f x).id = x.id) :
    ∀ l : List Ticket, ticketIds (l.map f) = ticketIds l := by
  intro l
  induction l with
  | nil => rfl
  | cons x rest ih =>
    simp only [ticketIds, List.map_cons] at ih ⊢
    rw [hf x, ih]

/-- Helper: the id-replacing map of the `updated` handler preserves ids. -/
theorem updated_preserves_ids (t : Ticket) (old : List Ticket) :
    ticketIds (old.map (fun x => if x.id == t.id then t else x)) = ticketIds old := by
  apply ticketIds_map_of_id_eq
  intro x
  by_cases hx : (x.id == t.id) = true
  · rw [if_pos hx]
    exact (eq_of_beq hx).symm
  · rw [if_neg hx]

/-- A ticket with the same id as `sampleTicket` but different content,
as a server might (wrongly) push in a duplicate `created` event. -/
def dupTicket : Ticket :=
  { sampleTicket with title := "Duplicate created push" }

/-- C5 counterexample: the cache `[sampleTicket]` has pairwise-distinct
ids, yet the `ticket:created` handler applied to a pushed ticket carrying
the already-present id `T-1` appends it blindly and yields a cache with a
duplicated id. -/
theorem id_uniqueness_counterexample :
    (ticketIds (sampleCache.getD [])).Nodup ∧
    ¬ (ticketIds ((ticketCreated dupTicket sampleCache).getD [])).Nodup := by
  constructor
  · decide
  · decide

/-- C5 amended — id uniqueness is preserved by the `updated` and
`deleted` push handlers and by both optimistic mutation writes; the
`init` handler yields distinct ids exactly when its payload's ids are
distinct; the `created` handler preserves distinctness only under the
extra assumption that the pushed id is not already present (it appends
unconditionally, see the counterexample). -/
theorem id_uniqueness_preservation (old payload : List Ticket) (t : Ticket)
    (id : String) (u : TicketUpdate) (newStatus now : String) :
    ((ticketIds old).Nodup →
       (ticketIds ((ticketUpdated t (some old)).getD [])).Nodup) ∧
    ((ticketIds old).Nodup →
       (ticketIds ((ticketDeleted id (some old)).getD [])).Nodup) ∧
    ((ticketIds old).Nodup →
       (ticketIds (((updateOnMutate id u now (some old)).1).getD [])).Nodup) ∧
    ((ticketIds old).Nodup →
       (ticketIds (((moveOnMutate id newStatus now (some old)).1).getD [])).Nodup) ∧
    ((ticketIds payload).Nodup →
       (ticketIds ((ticketsInit payload (some old)).getD [])).Nodup) ∧
    ((ticketIds old).Nodup → old.all (fun x => x.id != t.id) = true →
       (ticketIds ((ticketCreated t (some old)).getD [])).Nodup) := by
  refine ⟨?_, ?_, ?_, ?_, fun h => h, ?_⟩
  · intro h
    show (ticketIds (old.map (fun x => if x.id == t.id then t else x))).Nodup
    rw [updated_preserves_ids]
    exact h
  · intro h
    show (ticketIds (old.filter (fun x => x.id != id))).Nodup
    exact h.sublist ((List.filter_sublist old).map Ticket.id)
  · intro h
    show (ticketIds (old.map (fun x =>
      if x.id == id then { applyUpdate x u with updatedAt := now } else x))).Nodup
    rw [ticketIds_map_of_id_eq]
    · exact h
    · intro x
      by_cases hx : (x.id == id) = true
      · rw [if_pos hx]
        rfl
      · rw [if_neg hx]
  · intro h
    show (ticketIds (old.map (fun x =>
      if x.id == id then { x with status := newStatus, updatedAt := now } else x))).Nodup
    rw [ticketIds_map_of_id_eq]
    · exact h
    · intro x
      by_cases hx : (x.id == id) = true
      · rw [if_pos hx]
      · rw [if_neg hx]
  · intro h hfresh
    show (ticketIds (old ++ [t])).Nodup
    have : ticketIds (old ++ [t]) = ticketIds old ++ [t.id] := by
      simp [ticketIds]
    rw [this]
    rw [List.nodup_append]
    refine ⟨h, List.nodup_singleton t.id, ?_⟩
    intro a ha hb
    simp only [List.mem_singleton] at hb
    subst hb
    simp only [ticketIds, List.mem_map] at ha
    rcases ha with ⟨x, hx, hxa⟩
    have := List.all_eq_true.mp hfresh x hx
    rw [bne_iff_ne] at this
    exact this hxa

/-- Closed witness for `id_uniqueness_preservation`: its hypotheses hold
and its conclusions follow on concrete caches. -/
theorem id_uniqueness_preservation_witness :
    ((ticketIds [sampleTicket, otherTicket]).Nodup ∧
       (ticketIds ((ticketUpdated serverResponseTicket
         (some [sampleTicket, otherTicket])).getD [])).Nodup) ∧
    (([sampleTicket].all (fun x => x.id != otherTicket.id) = true) ∧
       (ticketIds ((ticketCreated otherTicket (some [sampleTicket])).getD [])).Nodup) :=
  ⟨⟨by decide,
    (id_uniqueness_preservation [sampleTicket, otherTicket] [] serverResponseTicket
      "x" {} "todo" "u9").1 (by decide)⟩,
   ⟨by decide,
    (id_uniqueness_preservation [sampleTicket] [] otherTicket
      "x" {} "todo" "u9").2.2.2.2.2 (by decide) (by decide)⟩⟩

/-! ## Kanban board: lane grouping and drag-and-drop -/

/-- Lane set of the board.  The repo's `types/ticket.ts` is not among the
provided sources; the set is read off the lane keys of the `grouped`
literal in `KanbanBoard.ticketsByStatus` and of `Lane.LANE_COLORS`, which
the board renders in this order via `STATUS_ORDER.map`. -/
def STATUS_ORDER : List String :=
  ["backlog", "groomed", "todo", "in-progress", "done"]

/-- Embeds `KanbanBoard.handleDragEnd`: returns the mutation call
`(ticketId, newStatus)` handed to `moveTicket`, or `none` when no
mutation is issued.  `over = none` models a drop outside any droppable
(`if (!over) return`); a drop target is acted on only when it is a
recognized lane (`STATUS_ORDER.includes(overId)`); the dragged ticket is
looked up by id, and the move is issued only when its current status
differs from the target lane. -/
def handleDragEnd (tickets : List Ticket) (activeId : String)
    (over : Option String) : Option (String × String) :=
  match over with
  | none => none
  | some overId =>
    if STATUS_ORDER.contains overId then
      match tickets.find? (fun t => t.id == activeId) with
      | some t => if t.status != overId then some (activeId, overId) else none
      | none => none
    else none

/-- Lane assignment of `KanbanBoard.ticketsByStatus`: a ticket lands in
the lane named by its status when `grouped` has that key (arrays are
truthy in JS, empty ones included, so the check `if (grouped[status])`
tests key membership), and in the `backlog` lane otherwise. -/
def laneOf (t : Ticket) : String :=
  if STATUS_ORDER.contains t.status then t.status else "backlog"

/-- The comparator table `priorityOrder = \x7b high: 0, medium: 1, low: 2 \x7d`
of `KanbanBoard.ticketsByStatus`. -/
def priorityOrder : Priority → Nat
  | .high => 0
  | .medium => 1
  | .low => 2

/-- Embeds a lane of `KanbanBoard.ticketsByStatus`: the tickets assigned
to lane `s`, sorted ascending by priority rank. -/
def ticketsByStatus (tickets : List Ticket) (s : String) : List Ticket :=
  (tickets.filter (fun t => laneOf t == s)).mergeSort
    (fun a b => decide (priorityOrder a.priority ≤ priorityOrder b.priority))

/-- C6 — idempotent move to same lane: when the dragged id resolves to
ticket `t` (the lookup the handler itself performs), dropping `t` onto
the lane equal to its current status issues no mutation call (and hence
leaves the ticket collection unchanged — the only write path of the
handler is the issued `moveTicket` call), and any issued call names a
recognized lane different from `t`'s current status. -/
theorem idempotent_same_lane_move (tickets : List Ticket) (t : Ticket)
    (over : Option String)
    (hfind : tickets.find? (fun x => x.id == t.id) = some t) :
    handleDragEnd tickets t.id (some t.status) = none ∧
    (∀ tid st, handleDragEnd tickets t.id over = some (tid, st) →
       tid = t.id ∧ STATUS_ORDER.contains st = true ∧ st ≠ t.status) := by
  constructor
  · show (if STATUS_ORDER.contains t.status = true then
        match tickets.find? (fun x => x.id == t.id) with
        | some x => if x.status != t.status then some (t.id, t.status) else none
        | none => none
      else none) = none
    by_cases hc : (STATUS_ORDER.contains t.status) = true
    · rw [if_pos hc, hfind]
      show (if (t.status != t.status) = true then some (t.id, t.status) else none) = none
      have hbne : (t.status != t.status) = false := by
        simp
      rw [hbne]
      simp
    · rw [if_neg hc]
  · intro tid st h
    cases over with
    | none => cases h
    | some overId =>
      rw [show handleDragEnd tickets t.id (some overId) =
          (if STATUS_ORDER.contains overId = true then
            match tickets.find? (fun x => x.id == t.id) with
            | some x => if x.status != overId then some (t.id, overId) else none
            | none => none
          else none) from rfl] at h
      by_cases hc : (STATUS_ORDER.contains overId) = true
      · rw [if_pos hc, hfind] at h
        have h' : (if (t.status != overId) = true then some (t.id, overId) else none) =
            some (tid, st) := h
        by_cases hs : (t.status != overId) = true
        · rw [if_pos hs] at h'
          have h1 : tid = t.id ∧ st = overId := by
            have hsym := h'.symm
            injection hsym with h2
            injection h2 with ha hb
            exact ⟨ha, hb⟩
          refine ⟨h1.1, ?_, ?_⟩
          · rw [h1.2]
            exact hc
          · rw [h1.2]
            intro hcontra
            rw [bne_iff_ne] at hs
            exact hs hcontra.symm
        · rw [if_neg hs] at h'
          cases h'
      · rw [if_neg hc] at h
        cases h

/-- Closed witness for `idempotent_same_lane_move` at a concrete board. -/
theorem idempotent_same_lane_move_witness :
    ([sampleTicket].find? (fun x => x.id == sampleTicket.id) = some sampleTicket) ∧
    handleDragEnd [sampleTicket] sampleTicket.id (some sampleTicket.status) = none :=
  ⟨by decide,
   (idempotent_same_lane_move [sampleTicket] sampleTicket (some "todo") (by decide)).1⟩

/-- Helper: every ticket's assigned lane is a recognized lane. -/
theorem laneOf_mem (t : Ticket) : laneOf t ∈ STATUS_ORDER := by
  unfold laneOf
  by_cases hc : (STATUS_ORDER.contains t.status) = true
  · rw [if_pos hc]
    exact List.mem_of_elem_eq_true hc
  · rw [if_neg hc]
    decide

/-- Helper: an indicator sum over keys not containing the value is 0. -/
theorem sum_indicator_not_mem (v : String) :
    ∀ ks : List String, v ∉ ks →
      (ks.map (fun s => if v == s then (1 : Nat) else 0)).sum = 0 := by
  intro ks
  induction ks with
  | nil => intro _; rfl
  | cons k rest ih =>
    intro h
    have h1 : v ≠ k := fun hc => h (hc ▸ List.mem_cons_self k rest)
    have h2 : v ∉ rest := fun hc => h (List.mem_cons_of_mem k hc)
    have hk : ¬ (v == k) = true := fun hc => h1 (eq_of_beq hc)
    simp only [List.map_cons, List.sum_cons, if_neg hk, ih h2]

/-- Helper: an indicator sum over duplicate-free keys containing the
value is 1. -/
theorem sum_indicator_mem (v : String) :
    ∀ ks : List String, ks.Nodup → v ∈ ks →
      (ks.map (fun s => if v == s then (1 : Nat) else 0)).sum = 1 := by
  intro ks
  induction ks with
  | nil => intro _ h; cases h
  | cons k rest ih =>
    intro hnd hm
    rcases List.mem_cons.mp hm with h | h
    · subst h
      have hk : (v == v) = true := beq_self_eq_true v
      have hrest : v ∉ rest := (List.nodup_cons.mp hnd).1
      simp only [List.map_cons, List.sum_cons, if_pos hk,
        sum_indicator_not_mem v rest hrest]
    · have hne : v ≠ k := by
        intro hc
        subst hc
        exact (List.nodup_cons.mp hnd).1 h
      have hk : ¬ (v == k) = true := fun hc => hne (eq_of_beq hc)
      simp only [List.map_cons, List.sum_cons, if_neg hk,
        ih (List.nodup_cons.mp hnd).2 h]

/-- Helper: the lane-wise counts of a ticket list sum to its length. -/
theorem countP_lane_sum :
    ∀ ts : List Ticket,
      (STATUS_ORDER.map (fun s => ts.countP (fun t => laneOf t == s))).sum = ts.length := by
  intro ts
  induction ts with
  | nil => rfl
  | cons t rest ih =>
    have hone : (STATUS_ORDER.map (fun s => if laneOf t == s then (1 : Nat) else 0)).sum = 1 :=
      sum_indicator_mem (laneOf t) STATUS_ORDER (by decide) (laneOf_mem t)
    simp only [STATUS_ORDER, List.map_cons, List.map_nil, List.sum_cons,
      List.sum_nil, List.countP_cons, List.length_cons] at ih hone ⊢
    omega

/-- C7 — status coercion never drops tickets: the board's lanes partition
the input list.  The lane-size sum equals the input length; every ticket
is assigned the recognized lane `laneOf t` (its own status when
recognized, the default `backlog` otherwise), appears in that lane, and
appears in no other lane. -/
theorem status_coercion_partition (tickets : List Ticket) :
    (STATUS_ORDER.map (fun s => (ticketsByStatus tickets s).length)).sum = tickets.length ∧
    (∀ t ∈ tickets, STATUS_ORDER.contains (laneOf t) = true ∧
       t ∈ ticketsByStatus tickets (laneOf t) ∧
       ∀ s : String, t ∈ ticketsByStatus tickets s → s = laneOf t) := by
  constructor
  · have hlen : ∀ s : String, (ticketsByStatus tickets s).length =
        tickets.countP (fun t => laneOf t == s) := by
      intro s
      unfold ticketsByStatus
      rw [(List.mergeSort_perm _ _).length_eq]
      exact (List.countP_eq_length_filter _ _).symm
    calc (STATUS_ORDER.map (fun s => (ticketsByStatus tickets s).length)).sum
        = (STATUS_ORDER.map (fun s => tickets.countP (fun t => laneOf t == s))).sum := by
          rw [List.map_congr_left (fun s _ => hlen s)]
      _ = tickets.length := countP_lane_sum tickets
  · intro t ht
    refine ⟨List.elem_eq_true_of_mem (laneOf_mem t), ?_, ?_⟩
    · unfold ticketsByStatus
      rw [(List.mergeSort_perm _ _).mem_iff]
      exact List.mem_filter.mpr ⟨ht, beq_self_eq_true (laneOf t)⟩
    · intro s hs
      unfold ticketsByStatus at hs
      rw [(List.mergeSort_perm _ _).mem_iff] at hs
      exact (eq_of_beq (List.mem_filter.mp hs).2).symm

/-- Closed witness for `status_coercion_partition` at a concrete board. -/
theorem status_coercion_partition_witness :
    ((STATUS_ORDER.map (fun s => (ticketsByStatus [sampleTicket] s).length)).sum =
       [sampleTicket].length) ∧
    (sampleTicket ∈ [sampleTicket] ∧
       sampleTicket ∈ ticketsByStatus [sampleTicket] (laneOf sampleTicket)) :=
  ⟨(status_coercion_partition [sampleTicket]).1,
   ⟨by decide,
    ((status_coercion_partition [sampleTicket]).2 sampleTicket (by decide)).2.1⟩⟩

/-! ## REST boundary: `handleResponse` and the inline delete handler -/

/-- An HTTP response as the handlers inspect it: `ok`, `status`, whether
the body parsed as JSON (`jsonOk`; `response.json()` rejecting models
`jsonOk = false`) and, when parsed, its `message` field (`none` = field
missing). -/
structure HttpResponse where
  ok : Bool
  status : Nat
  jsonOk : Bool := true
  message : Option String := none
deriving DecidableEq, Repr

/-- The credential side effects a handler may perform: `signedOut`
(`supabase.auth.signOut()`) and `redirected`
(`window.location.href = '/login'`). -/
structure AuthEffects where
  signedOut : Bool
  redirected : Bool
deriving DecidableEq, Repr

/-- Outcome of a REST call: the parsed body on success, or the message of
the thrown `Error`. -/
inductive RestOutcome where
  | success
  | failure (msg : String)
deriving DecidableEq, Repr

/-- Embeds `handleResponse` (src/api/tickets.ts), shared by `fetchTickets`,
`fetchTicket`, `updateTicket`, `createTicket`, `triggerGrooming` and
`moveTicket` (and by the projects API): on a 401 it signs out, redirects
to `/login` and throws the fixed session-expired message; on any other
error status it throws the parsed `error.message`, falling back to
`'Network error'` when the body does not parse and to `'HTTP error N'`
when the parsed message is missing or empty, with no credential side
effects; on `ok` it returns the body. -/
def handleResponse (r : HttpResponse) : AuthEffects × RestOutcome :=
  if r.ok then
    (⟨false, false⟩, .success)
  else if r.status == 401 then
    (⟨true, true⟩, .failure "Session expired. Please sign in again.")
  else
    let fallback := "HTTP error " ++ toString r.status
    let msg :=
      if r.jsonOk then
        match r.message with
        | some m => if m == "" then fallback else m
        | none => fallback
      else "Network error"
    (⟨false, false⟩, .failure msg)

/-- Embeds the inline error handling of `deleteTicket`
(src/api/tickets.ts), which does not use `handleResponse`: on a 401 it
redirects to `/login` and throws `'Session expired'` but performs no
sign-out; on any other error status it throws the parsed message
(falling back to `'Failed to delete ticket'` when the body does not
parse, and to the empty message when the parsed `message` field is
missing), again with no credential side effects. -/
def deleteTicketHandle (r : HttpResponse) : AuthEffects × RestOutcome :=
  if r.ok then
    (⟨false, false⟩, .success)
  else if r.status == 401 then
    (⟨false, true⟩, .failure "Session expired")
  else
    let msg :=
      if r.jsonOk then
        match r.message with
        | some m => m
        | none => ""
      else "Failed to delete ticket"
    (⟨false, false⟩, .failure msg)

/-- C8 counterexample: a 401 response to `deleteTicket` redirects to
re-authentication but performs no credential invalidation — `signOut` is
never called on the delete path, so not every REST operation's 401
triggers sign-out. -/
theorem delete_401_no_signout_counterexample :
    (deleteTicketHandle ⟨false, 401, false, none⟩).1.signedOut = false ∧
    (deleteTicketHandle ⟨false, 401, false, none⟩).1.redirected = true ∧
    (handleResponse ⟨false, 401, false, none⟩).1.signedOut = true := by
  exact ⟨rfl, rfl, rfl⟩

/-- C8 amended — 401 handling: every REST operation routed through the
shared `handleResponse` (list, get, update, create, move,
triggerProcess) reacts to a 401 with sign-out plus redirect and raises
the fixed session-expired message (distinguishable from handler-generated
failure messages only by its text); `deleteTicket`, which has its own
inline handler, redirects on 401 but performs no sign-out; on non-401
error responses neither handler signs out or redirects; successful
responses have no credential side effects. -/
theorem rest_401_handling (r : HttpResponse) :
    (r.ok = false → r.status = 401 →
       handleResponse r = (⟨true, true⟩, .failure "Session expired. Please sign in again.")) ∧
    (r.ok = false → r.status ≠ 401 →
       (handleResponse r).1 = ⟨false, false⟩ ∧ ∃ m, (handleResponse r).2 = .failure m) ∧
    (r.ok = true → handleResponse r = (⟨false, false⟩, .success)) ∧
    (r.ok = false → r.status = 401 →
       deleteTicketHandle r = (⟨false, true⟩, .failure "Session expired")) ∧
    (r.ok = false → r.status ≠ 401 → (deleteTicketHandle r).1 = ⟨false, false⟩) ∧
    (r.ok = true → deleteTicketHandle r = (⟨false, false⟩, .success)) := by
  refine ⟨?_, ?_, ?_, ?_, ?_, ?_⟩
  · intro hok h401
    unfold handleResponse
    rw [hok, h401]
    rfl
  · intro hok h401
    have hb : (r.status == 401) = false := by
      simpa using h401
    unfold handleResponse
    rw [hok, hb]
    simp only [Bool.false_eq_true, if_false]
    constructor
    · trivial
    · exact ⟨_, rfl⟩
  · intro hok
    unfold handleResponse
    rw [hok]
    rfl
  · intro hok h401
    unfold deleteTicketHandle
    rw [hok, h401]
    rfl
  · intro hok h401
    have hb : (r.status == 401) = false := by
      simpa using h401
    unfold deleteTicketHandle
    rw [hok, hb]
    rfl
  · intro hok
    unfold deleteTicketHandle
    rw [hok]
    rfl

/-- Closed witness for `rest_401_handling` at concrete responses. -/
theorem rest_401_handling_witness :
    (handleResponse ⟨false, 401, true, none⟩ =
       (⟨true, true⟩, .failure "Session expired. Please sign in again.")) ∧
    ((handleResponse ⟨false, 500, true, some "boom"⟩).1 = ⟨false, false⟩) ∧
    (deleteTicketHandle ⟨false, 401, true, none⟩ =
       (⟨false, true⟩, .failure "Session expired")) :=
  ⟨(rest_401_handling ⟨false, 401, true, none⟩).1 rfl rfl,
   ((rest_401_handling ⟨false, 500, true, some "boom"⟩).2.1 rfl (by decide)).1,
   (rest_401_handling ⟨false, 401, true, none⟩).2.2.2.1 rfl rfl⟩

/-! ## Roles and permissions: `src/api/projects.ts` -/

/-- ProjectRole from src/api/projects.ts:
`'owner' | 'member' | 'viewer' | 'admin'`. -/
inductive ProjectRole where
  | owner
  | member
  | viewer
  | admin
deriving DecidableEq, Repr, Fintype

/-- The `hierarchy` table inside `hasMinimumRole`:
admin 4, owner 3, member 2, viewer 1. -/
def hierarchy : ProjectRole → Nat
  | .admin => 4
  | .owner => 3
  | .member => 2
  | .viewer => 1

/-- Embeds `hasMinimumRole`: a `null` role never qualifies; `admin`
always does; otherwise ranks are compared with `>=`. -/
def hasMinimumRole (userRole : Option ProjectRole) (requiredRole : ProjectRole) : Bool :=
  match userRole with
  | none => false
  | some r =>
    if r == .admin then true
    else decide (hierarchy r ≥ hierarchy requiredRole)

/-- The capability record returned by `getProjectPermissions`. -/
structure ProjectPermissions where
  canView : Bool
  canEdit : Bool
  canDelete : Bool
  canManageMembers : Bool
  isAdmin : Bool
deriving DecidableEq, Repr

/-- Embeds `getProjectPermissions`. -/
def getProjectPermissions (role : Option ProjectRole) : ProjectPermissions :=
  { canView := hasMinimumRole role .viewer
    canEdit := hasMinimumRole role .member
    canDelete := hasMinimumRole role .owner
    canManageMembers := role == some .owner || role == some .admin
    isAdmin := role == some .admin }

/-- C9 — null role means no access: for every required role,
`hasMinimumRole null r` is `false`, and `getProjectPermissions null`
grants none of the five capabilities. -/
theorem null_role_no_access :
    (∀ r : ProjectRole, hasMinimumRole none r = false) ∧
    getProjectPermissions none = ⟨false, false, false, false, false⟩ := by
  constructor
  · intro r
    rfl
  · rfl

/-- C10 — permission monotonicity: `hasMinimumRole` is monotone in the
required role (a weaker requirement is implied by a stronger one under
the hierarchy admin > owner > member > viewer), every non-null role meets
its own requirement, and the capability set of `getProjectPermissions`
is downward-closed: `canDelete` implies `canEdit` and `canEdit` implies
`canView`. -/
theorem permission_monotonicity (r q1 q2 : ProjectRole) :
    (hierarchy q1 ≤ hierarchy q2 →
       hasMinimumRole (some r) q2 = true → hasMinimumRole (some r) q1 = true) ∧
    hasMinimumRole (some r) r = true ∧
    ((getProjectPermissions (some r)).canDelete = true →
       (getProjectPermissions (some r)).canEdit = true) ∧
    ((getProjectPermissions (some r)).canEdit = true →
       (getProjectPermissions (some r)).canView = true) := by
  revert r q1 q2
  decide

/-- Closed witness for `permission_monotonicity` at concrete roles. -/
theorem permission_monotonicity_witness :
    (hierarchy .viewer ≤ hierarchy .member ∧
       hasMinimumRole (some .member) .member = true ∧
       hasMinimumRole (some .member) .viewer = true) ∧
    ((getProjectPermissions (some .owner)).canDelete = true ∧
       (getProjectPermissions (some .owner)).canEdit = true) :=
  ⟨⟨by decide, by decide,
    (permission_monotonicity .member .viewer .member).1 (by decide) (by decide)⟩,
   ⟨by decide,
    (permission_monotonicity .owner .viewer .member).2.2.1 (by decide)⟩⟩
